import Mathlib

/-!
Verification of the stream-key authentication and lifecycle subsystem of
rescuestream-api.

The development shallowly embeds the Go code:

* the PostgreSQL tables `stream_keys` and `streams` (migration
  `000001_initial_schema.up.sql`) become lists of records inside a `DB`
  structure; each SQL statement the Go code issues becomes a pure function
  on `DB`.  The partial unique index `idx_streams_one_active_per_key`
  (`ON streams(stream_key_id) WHERE status = 'active'`) and the primary key
  on `streams.id` are enforced inside `DB.insertStream`, exactly as the
  database enforces them on INSERT.  Foreign keys to `broadcasters` are not
  modelled (no claim depends on them; dropping a constraint only enlarges
  the set of reachable states, so invariant proofs are only stronger).
* `AuthService.Authenticate`, `WebhookHandler.handleReady`,
  `WebhookHandler.handleNotReady` and `StreamKeyService.Revoke` are
  translated branch by branch from `internal/service/auth.go`,
  `internal/handler/webhook.go` and `internal/service/streamkey.go`.
* wall-clock time (`time.Now()` / SQL `NOW()`) is passed in explicitly as a
  `Nat` parameter `now`; UUIDs become `Nat` identifiers; freshly generated
  UUIDs are passed in as parameters.
* the MediaMTX control-plane state (RTMP connections, RTSP sessions, and
  which API calls fail) is an explicit `MtxEnv` environment, so that
  best-effort behaviour under external failure is quantifiable.
-/

namespace RescueStream

/-- Status of a stream key, from `internal/domain/streamkey.go`
(`active`, `revoked`, `expired`). -/
inductive StreamKeyStatus
  | active
  | revoked
  | expired
deriving DecidableEq, Repr

/-- Status of a stream, from `internal/domain/stream.go` (`active`, `ended`). -/
inductive StreamStatus
  | active
  | ended
deriving DecidableEq, Repr

/-- Boolean test that a stream status is `active`. -/
def StreamStatus.isActive : StreamStatus → Bool
  | .active => true
  | .ended => false

/-- A stream key row (`domain.StreamKey` / table `stream_keys`). -/
structure StreamKey where
  id : Nat
  keyValue : String
  broadcasterId : Nat
  status : StreamKeyStatus
  createdAt : Nat
  expiresAt : Option Nat
  revokedAt : Option Nat
  lastUsedAt : Option Nat
deriving DecidableEq, Repr

/-- A stream row (`domain.Stream` / table `streams`).  The `metadata` and
`recording_ref` columns are constant in every code path the claims touch and
are omitted. -/
structure Stream where
  id : Nat
  streamKeyId : Nat
  path : String
  status : StreamStatus
  startedAt : Nat
  endedAt : Option Nat
  sourceType : Option String
  sourceId : Option String
deriving DecidableEq, Repr

/-- The durable store: the two tables the subsystem mutates. -/
structure DB where
  keys : List StreamKey
  streams : List Stream
deriving DecidableEq, Repr

/-- The store holding no rows at all. -/
def DB.empty : DB := ⟨[], []⟩

/-- Errors surfaced by the repository layer (`internal/domain/errors.go`);
`uniqueViolation` stands for the PostgreSQL constraint error an INSERT gets
when it would violate a unique index. -/
inductive DomainError
  | notFound
  | invalidStatus
  | uniqueViolation
deriving DecidableEq, Repr

/-- Lookup `SELECT ... FROM stream_keys WHERE key_value = $1`
(`StreamKeyRepo.GetByKeyValue`; also the `FOR UPDATE` variant used by
`AuthService.getAndLockStreamKey` — locking has no observable effect on a
single atomic step, so both share this reading). -/
def DB.findKeyByValue (db : DB) (v : String) : Option StreamKey :=
  db.keys.find? (fun k => k.keyValue == v)

/-- Lookup `SELECT ... FROM stream_keys WHERE id = $1`
(`StreamKeyRepo.GetByID`). -/
def DB.findKeyById (db : DB) (id : Nat) : Option StreamKey :=
  db.keys.find? (fun k => k.id == id)

/-- Lookup `SELECT ... FROM streams WHERE stream_key_id = $1 AND
status = 'active'` (`StreamRepo.GetActiveByStreamKeyID` and
`AuthService.getActiveStreamByKeyID`). -/
def DB.activeStreamByKeyId (db : DB) (kid : Nat) : Option Stream :=
  db.streams.find? (fun s => s.streamKeyId == kid && s.status.isActive)

/-- Effect of `INSERT INTO streams ...` (`StreamRepo.Create`) under the
schema of `000001_initial_schema.up.sql`: the insert fails when the primary
key on `id` is violated, or when the partial unique index
`idx_streams_one_active_per_key` would be violated, i.e. when the inserted
row is `active` and some `active` row with the same `stream_key_id` already
exists. -/
def DB.insertStream (db : DB) (s : Stream) : Except DomainError DB :=
  if db.streams.any (fun t => t.id == s.id) then
    .error .uniqueViolation
  else if s.status.isActive &&
      db.streams.any (fun t => t.streamKeyId == s.streamKeyId && t.status.isActive) then
    .error .uniqueViolation
  else
    .ok { db with streams := db.streams ++ [s] }

/-- Effect of `INSERT INTO stream_keys ...` (`StreamKeyRepo.Create`): fails
on a duplicate `id` (primary key) or duplicate `key_value` (UNIQUE). -/
def DB.insertKey (db : DB) (k : StreamKey) : Except DomainError DB :=
  if db.keys.any (fun t => t.id == k.id || t.keyValue == k.keyValue) then
    .error .uniqueViolation
  else
    .ok { db with keys := db.keys ++ [k] }

/-- Updated row produced by `UPDATE streams SET status = 'ended',
ended_at = NOW() ...`. -/
def endStreamUpdate (now : Nat) (s : Stream) : Stream :=
  { s with status := .ended, endedAt := some now }

/-- Effect of `UPDATE streams SET status = 'ended', ended_at = NOW() WHERE
id = $1 AND status = 'active'` (`StreamRepo.EndStream`); also returns the
number of rows affected. -/
def DB.endStreamRows (db : DB) (id now : Nat) : DB × Nat :=
  ({ db with streams := db.streams.map (fun s =>
      if s.id == id && s.status.isActive then endStreamUpdate now s else s) },
   db.streams.countP (fun s => s.id == id && s.status.isActive))

/-- Effect of `UPDATE streams SET status = 'ended', ended_at = NOW() WHERE
path = $1 AND status = 'active'` (`StreamRepo.EndStreamByPath`); also
returns the number of rows affected. -/
def DB.endStreamByPathRows (db : DB) (p : String) (now : Nat) : DB × Nat :=
  ({ db with streams := db.streams.map (fun s =>
      if s.path == p && s.status.isActive then endStreamUpdate now s else s) },
   db.streams.countP (fun s => s.path == p && s.status.isActive))

/-- Effect of `UPDATE stream_keys SET status = $2, revoked_at = $3 WHERE
id = $1` (`StreamKeyRepo.UpdateStatus`); also returns the number of rows
affected. -/
def DB.updateKeyStatus (db : DB) (id : Nat) (st : StreamKeyStatus)
    (revokedAt : Option Nat) : DB × Nat :=
  ({ db with keys := db.keys.map (fun k =>
      if k.id == id then { k with status := st, revokedAt := revokedAt } else k) },
   db.keys.countP (fun k => k.id == id))

/-- Effect of the raw statement `UPDATE stream_keys SET status = 'expired'
WHERE id = $1` issued inside `AuthService.Authenticate` (it changes status
only, not `revoked_at`). -/
def DB.markKeyExpired (db : DB) (id : Nat) : DB × Nat :=
  ({ db with keys := db.keys.map (fun k =>
      if k.id == id then { k with status := .expired } else k) },
   db.keys.countP (fun k => k.id == id))

/-- Effect of `UPDATE stream_keys SET last_used_at = NOW() WHERE id = $1`
(issued inside `AuthService.Authenticate`). -/
def DB.updateKeyLastUsed (db : DB) (id now : Nat) : DB × Nat :=
  ({ db with keys := db.keys.map (fun k =>
      if k.id == id then { k with lastUsedAt := some now } else k) },
   db.keys.countP (fun k => k.id == id))

/-- The `StreamRepo.EndStream` method: `domain.ErrNotFound` when zero rows
were affected. -/
def StreamRepo.EndStream (db : DB) (id now : Nat) : DB × Except DomainError Unit :=
  ((db.endStreamRows id now).1,
   if (db.endStreamRows id now).2 == 0 then .error .notFound else .ok ())

/-- The `StreamRepo.EndStreamByPath` method: `domain.ErrNotFound` when zero
rows were affected. -/
def StreamRepo.EndStreamByPath (db : DB) (p : String) (now : Nat) :
    DB × Except DomainError Unit :=
  ((db.endStreamByPathRows p now).1,
   if (db.endStreamByPathRows p now).2 == 0 then .error .notFound else .ok ())

/-- The `StreamKeyRepo.UpdateStatus` method: `domain.ErrNotFound` when zero
rows were affected. -/
def StreamKeyRepo.UpdateStatus (db : DB) (id : Nat) (st : StreamKeyStatus)
    (revokedAt : Option Nat) : DB × Except DomainError Unit :=
  ((db.updateKeyStatus id st revokedAt).1,
   if (db.updateKeyStatus id st revokedAt).2 == 0 then .error .notFound else .ok ())

/-- An authentication request from MediaMTX (`service.AuthRequest`). -/
structure AuthRequest where
  user : String
  password : String
  ip : String
  action : String
  path : String
  protocol : String
  id : String
  query : String
deriving DecidableEq, Repr

/-- Result of an authentication attempt (`service.AuthResult`); the stream
key id is a `Nat` here where the Go code stringifies the UUID. -/
structure AuthResult where
  allowed : Bool
  streamKeyID : Option Nat
  reason : String
deriving DecidableEq, Repr

/-- One SQL statement executed by `AuthService.Authenticate`, recorded so
that frame properties ("no row read or written") are statable. -/
inductive SqlOp
  | selectKeyForUpdate
  | updateKeyExpired
  | selectActiveStream
  | updateKeyLastUsed
deriving DecidableEq, Repr

/-- Outcome of `AuthService.Authenticate`: the store after the transaction
committed, the returned result, and the trace of SQL statements executed. -/
structure AuthOutcome where
  db : DB
  result : AuthResult
  trace : List SqlOp
deriving DecidableEq, Repr

/-- Stream-key extraction of `AuthService.Authenticate`: take the password
field; when it is empty fall back to the path, with a single leading slash
stripped. -/
def extractKeyValue (req : AuthRequest) : String :=
  if req.password == "" then
    if req.path ≠ "" && req.path.front == '/' then req.path.drop 1 else req.path
  else
    req.password

/-- Boolean form of `key.ExpiresAt != nil && time.Now().After(*key.ExpiresAt)`:
an expiry time exists and lies strictly in the past. -/
def expiredByTime (key : StreamKey) (now : Nat) : Bool :=
  match key.expiresAt with
  | some t => decide (t < now)
  | none => false

/-- The `AuthService.Authenticate` decision procedure, translated branch by
branch from `internal/service/auth.go`: non-publish actions pass through;
otherwise the key value is extracted, then inside one transaction the key is
looked up and locked, checked for revocation, stored expiry, time-based
expiry (marking the row expired), and an existing active stream, and on
success `last_used_at` is set.  The transaction commits in every branch the
model covers (store connectivity failures are out of the model). -/
def AuthService.Authenticate (db : DB) (now : Nat) (req : AuthRequest) : AuthOutcome :=
  if req.action ≠ "publish" then
    ⟨db, ⟨true, none, "non-publish action allowed"⟩, []⟩
  else
    if extractKeyValue req = "" then
      ⟨db, ⟨false, none, "missing stream key"⟩, []⟩
    else
      match db.findKeyByValue (extractKeyValue req) with
      | none => ⟨db, ⟨false, none, "invalid stream key"⟩, [.selectKeyForUpdate]⟩
      | some key =>
        if key.status = .revoked then
          ⟨db, ⟨false, none, "stream key revoked"⟩, [.selectKeyForUpdate]⟩
        else if key.status = .expired then
          ⟨db, ⟨false, none, "stream key expired"⟩, [.selectKeyForUpdate]⟩
        else if expiredByTime key now then
          ⟨(db.markKeyExpired key.id).1, ⟨false, none, "stream key expired"⟩,
           [.selectKeyForUpdate, .updateKeyExpired]⟩
        else
          match db.activeStreamByKeyId key.id with
          | some _ =>
            ⟨db, ⟨false, none, "stream key already in use"⟩,
             [.selectKeyForUpdate, .selectActiveStream]⟩
          | none =>
            ⟨(db.updateKeyLastUsed key.id now).1,
             ⟨true, some key.id, "authentication successful"⟩,
             [.selectKeyForUpdate, .selectActiveStream, .updateKeyLastUsed]⟩

/-- An HTTP response as far as the MediaMTX auth contract observes it:
status code plus optional body. -/
structure HttpResponse where
  status : Nat
  body : Option String
deriving DecidableEq, Repr

/-- The response written by `AuthHandler.ServeHTTP` once `Authenticate`
returned a result: bare 401 with no body on rejection (whatever the
reason), bare 200 on success. -/
def AuthHandler.respond (result : AuthResult) : HttpResponse :=
  if result.allowed then ⟨200, none⟩ else ⟨401, none⟩

/-- The `AuthHandler.ServeHTTP` request path after a successful JSON
decode: run `Authenticate` and translate its result to the wire response. -/
def AuthHandler.ServeHTTP (db : DB) (now : Nat) (req : AuthRequest) :
    DB × HttpResponse :=
  let o := AuthService.Authenticate db now req
  (o.db, AuthHandler.respond o.result)

/-- Body of the MediaMTX `runOnReady` webhook (`handler.WebhookReadyRequest`). -/
structure WebhookReadyRequest where
  path : String
  sourceType : String
  sourceId : String
deriving DecidableEq, Repr

/-- Body of the MediaMTX `runOnNotReady` webhook
(`handler.WebhookNotReadyRequest`). -/
structure WebhookNotReadyRequest where
  path : String
deriving DecidableEq, Repr

/-- Stream record built by `WebhookHandler.handleReady` before insertion:
a fresh id, the key that matched the path, status active, started now, and
the source descriptors when non-empty. -/
def readyStream (newId keyId now : Nat) (req : WebhookReadyRequest) : Stream :=
  { id := newId
    streamKeyId := keyId
    path := req.path
    status := .active
    startedAt := now
    endedAt := none
    sourceType := if req.sourceType = "" then none else some req.sourceType
    sourceId := if req.sourceId = "" then none else some req.sourceId }

/-- The `WebhookHandler.handleReady` handler: reject an empty path with 400;
otherwise look the stream key up by the path value; when absent answer 204
without touching the store; when present attempt to insert a fresh active
stream record, answering 204 whether or not the insert succeeded (a failed
insert is only logged, and MediaMTX still needs its 2xx). -/
def WebhookHandler.handleReady (db : DB) (now newId : Nat)
    (req : WebhookReadyRequest) : DB × Nat :=
  if req.path = "" then
    (db, 400)
  else
    match db.findKeyByValue req.path with
    | none => (db, 204)
    | some key =>
      match db.insertStream (readyStream newId key.id now req) with
      | .error _ => (db, 204)
      | .ok db2 => (db2, 204)

/-- The `WebhookHandler.handleNotReady` handler: reject an empty path with
400; otherwise end every active stream on that path, answering 204 whether
any row was affected or not (`ErrNotFound` is only logged). -/
def WebhookHandler.handleNotReady (db : DB) (now : Nat)
    (req : WebhookNotReadyRequest) : DB × Nat :=
  if req.path = "" then
    (db, 400)
  else
    ((StreamRepo.EndStreamByPath db req.path now).1, 204)

/-- A connection or session as the MediaMTX list APIs report it: the Go
client treats both id and path as optional pointers. -/
structure MtxConn where
  id : Option String
  path : Option String
deriving DecidableEq, Repr

/-- External MediaMTX control-plane state for one `KickPath` call: the
connections each list API would return, and which calls fail. -/
structure MtxEnv where
  rtmpListFails : Bool
  rtmpConns : List MtxConn
  rtmpKickFails : List String
  rtspListFails : Bool
  rtspSessions : List MtxConn
  rtspKickFails : List String
deriving DecidableEq, Repr

/-- Connections actually kicked from one listing: those with both id and
path present, whose path matches, and whose kick call succeeds (failed
kicks are logged and skipped). -/
def kickMatching (conns : List MtxConn) (fails : List String) (p : String) :
    List String :=
  conns.filterMap (fun c =>
    match c.path, c.id with
    | some cp, some ci =>
      if cp == p && !(fails.contains ci) then some ci else none
    | _, _ => none)

/-- The `MediaMTXClient.KickPath` call: list RTMP connections and RTSP
sessions (a failed listing is logged and yields nothing), kick each match,
and return the kicked ids.  The Go function returns nil unconditionally —
every failure inside is logged, none is propagated — so no error component
appears here. -/
def MediaMTXClient.KickPath (env : MtxEnv) (p : String) : List String :=
  (if env.rtmpListFails then [] else kickMatching env.rtmpConns env.rtmpKickFails p) ++
  (if env.rtspListFails then [] else kickMatching env.rtspSessions env.rtspKickFails p)

/-- Outcome of `StreamKeyService.Revoke`: the store afterwards, the returned
error (if any), and the MediaMTX connection ids that were kicked. -/
structure RevokeOutcome where
  db : DB
  result : Except DomainError Unit
  kicked : List String
deriving Repr

/-- The `StreamKeyService.Revoke` operation, translated branch by branch
from `internal/service/streamkey.go`: load the key (propagating not-found),
refuse non-active keys with `ErrInvalidStatus`, then if an active stream
exists kick its path from MediaMTX (failures logged, never fatal) and end
it in the store (failure likewise only logged), and finally mark the key
revoked with the revocation timestamp. -/
def StreamKeyService.Revoke (db : DB) (now : Nat) (env : MtxEnv) (id : Nat) :
    RevokeOutcome :=
  match db.findKeyById id with
  | none => ⟨db, .error .notFound, []⟩
  | some key =>
    if key.status ≠ .active then
      ⟨db, .error .invalidStatus, []⟩
    else
      match db.activeStreamByKeyId id with
      | none =>
        ⟨(StreamKeyRepo.UpdateStatus db id .revoked (some now)).1,
         (StreamKeyRepo.UpdateStatus db id .revoked (some now)).2, []⟩
      | some activeStream =>
        ⟨(StreamKeyRepo.UpdateStatus (StreamRepo.EndStream db activeStream.id now).1
            id .revoked (some now)).1,
         (StreamKeyRepo.UpdateStatus (StreamRepo.EndStream db activeStream.id now).1
            id .revoked (some now)).2,
         MediaMTXClient.KickPath env activeStream.path⟩

/-- The `StreamKeyService.List` operation (named `ListKeys` here because the
Go name `List` would shadow the Lean `List` type inside this namespace):
read all keys and blank out every `KeyValue` before returning (the
`ORDER BY created_at DESC` of the underlying query is not modelled; row
order is irrelevant to every property proved about this function). -/
def StreamKeyService.ListKeys (db : DB) : List StreamKey :=
  db.keys.map (fun k => { k with keyValue := "" })

/-- The `StreamKeyService.ListByBroadcaster` operation: read the keys of one
broadcaster and blank out every `KeyValue` before returning. -/
def StreamKeyService.ListByBroadcaster (db : DB) (bid : Nat) : List StreamKey :=
  (db.keys.filter (fun k => k.broadcasterId == bid)).map
    (fun k => { k with keyValue := "" })

/-- Number of active stream rows referencing a given stream key. -/
def activeCount (db : DB) (kid : Nat) : Nat :=
  db.streams.countP (fun s => s.streamKeyId == kid && s.status.isActive)

/-- The central invariant: at most one active stream row per stream key. -/
def OneLivePerKey (db : DB) : Prop := ∀ kid, activeCount db kid ≤ 1

/-- One atomic SQL write against the store.  These are exactly the write
statements issued anywhere in the subsystem: key creation
(`StreamKeyRepo.Create`), stream creation (`StreamRepo.Create`, used by the
ready webhook), the two end-stream updates (stop webhook and revocation),
the status updates (revocation and lazy expiry), and the last-used update
(admission).  Interleaving whole operations in any order therefore yields a
subrelation of `Step`-reachability, and an invariant preserved by every
single `Step` holds across every such interleaving — this is the structural
(store-level) enforcement, independent of application logic. -/
inductive Step : DB → DB → Prop
  | insertKey (k : StreamKey) {db db2 : DB} (h : db.insertKey k = .ok db2) :
      Step db db2
  | insertStream (s : Stream) {db db2 : DB} (h : db.insertStream s = .ok db2) :
      Step db db2
  | endStream (id now : Nat) (db : DB) : Step db (db.endStreamRows id now).1
  | endStreamByPath (p : String) (now : Nat) (db : DB) :
      Step db (db.endStreamByPathRows p now).1
  | updateKeyStatus (id : Nat) (st : StreamKeyStatus) (r : Option Nat) (db : DB) :
      Step db (db.updateKeyStatus id st r).1
  | markKeyExpired (id : Nat) (db : DB) : Step db (db.markKeyExpired id).1
  | updateKeyLastUsed (id now : Nat) (db : DB) :
      Step db (db.updateKeyLastUsed id now).1

/-- States of the store reachable from the empty store by atomic writes. -/
inductive Reachable : DB → Prop
  | empty : Reachable DB.empty
  | step {db db2 : DB} (h1 : Reachable db) (h2 : Step db db2) : Reachable db2

/-- Fixture: a freshly created stream key, as `StreamKeyService.Create`
builds one (active, no expiry). -/
def k1w : StreamKey := ⟨1, "sk_alpha", 2, .active, 0, none, none, none⟩

/-- Fixture: the store after inserting `k1w` into the empty store. -/
def db1w : DB := ⟨[k1w], []⟩

/-- Fixture: an active key with key value "k1". -/
def key2c : StreamKey := ⟨1, "k1", 7, .active, 0, none, none, none⟩

/-- Fixture: a store holding `key2c` and no streams. -/
def db2c : DB := ⟨[key2c], []⟩

/-- Fixture: a publish request presenting "k1" in the password field. -/
def req2c : AuthRequest := ⟨"", "k1", "9.9.9.9", "publish", "k1", "rtmp", "c1", ""⟩

/-- Fixture: an active key owning a live stream on path "p3". -/
def key3c : StreamKey := ⟨1, "p3", 7, .active, 0, none, none, none⟩

/-- Fixture: the live stream on path "p3" held by `key3c`. -/
def s3c : Stream := ⟨10, 1, "p3", .active, 2, none, some "rtmp", some "x"⟩

/-- Fixture: a store with `key3c` live on `s3c`. -/
def db3c : DB := ⟨[key3c], [s3c]⟩

/-- Fixture: a MediaMTX environment in which everything fails: the RTMP
listing errors out and the one matching RTSP session refuses to be kicked. -/
def env3c : MtxEnv := ⟨true, [], [], false, [⟨some "ss1", some "p3"⟩], ["ss1"]⟩

/-- Fixture: an active key whose value doubles as path "p". -/
def key4c : StreamKey := ⟨1, "p", 7, .active, 0, none, none, none⟩

/-- Fixture: a store holding `key4c` and no streams. -/
def db4c : DB := ⟨[key4c], []⟩

/-- Fixture: a ready webhook for path "p" with RTMP source descriptors. -/
def req4c : WebhookReadyRequest := ⟨"p", "rtmp", "x"⟩

/-- Fixture: an active key that expired at time 3. -/
def key5c : StreamKey := ⟨1, "k5", 7, .active, 0, some 3, none, none⟩

/-- Fixture: a store holding `key5c`. -/
def db5c : DB := ⟨[key5c], []⟩

/-- Fixture: a publish request presenting the expired key "k5". -/
def req5c : AuthRequest := ⟨"", "k5", "", "publish", "", "", "", ""⟩

/-- Fixture: a key that has already been revoked. -/
def key6c : StreamKey := ⟨1, "k6", 7, .revoked, 0, none, some 4, none⟩

/-- Fixture: a store holding the revoked `key6c` and one of its ended
streams. -/
def db6c : DB := ⟨[key6c], [⟨10, 1, "k6", .ended, 1, some 3, none, none⟩]⟩

/-- Fixture: a MediaMTX environment with nothing connected and no
failures. -/
def env6c : MtxEnv := ⟨false, [], [], false, [], []⟩

/-- Fixture: an active stream on path "p7". -/
def s7c : Stream := ⟨10, 1, "p7", .active, 2, none, none, none⟩

/-- Fixture: a store holding only the stream `s7c`. -/
def db7c : DB := ⟨[], [s7c]⟩

/-- Fixture: a stopped webhook for path "p7". -/
def req7c : WebhookNotReadyRequest := ⟨"p7"⟩

/-- Fixture: a publish request with a secret matching nothing. -/
def req8a : AuthRequest := ⟨"", "nosuch", "", "publish", "", "", "", ""⟩

/-- Fixture: a store holding a revoked key with value "rk". -/
def db8c : DB := ⟨[⟨1, "rk", 3, .revoked, 0, none, some 5, none⟩], []⟩

/-- Fixture: a publish request presenting the revoked key "rk". -/
def req8b : AuthRequest := ⟨"", "rk", "", "publish", "", "", "", ""⟩

/-- Fixture: a read-action request carrying no credential at all. -/
def req9c : AuthRequest := ⟨"", "", "1.2.3.4", "read", "watchpath", "hls", "c9", ""⟩

/-- Fixture: a key whose stored secret is non-empty. -/
def k10c : StreamKey := ⟨1, "sk_secret", 2, .active, 0, none, none, none⟩

/-- Fixture: a store holding `k10c`. -/
def db10c : DB := ⟨[k10c], []⟩

/-- Counting after a map is bounded by the original count whenever the
mapped image can only satisfy the predicate if the original did. -/
theorem countP_map_le_of_imp {α : Type} (f : α → α) (p : α → Bool) (l : List α)
    (h : ∀ x ∈ l, p (f x) = true → p x = true) :
    (l.map f).countP p ≤ l.countP p := by
  rw [List.countP_map]
  exact List.countP_mono_left h

/-- A successful stream insert appends the row and certifies that, if the
new row is active, no active row with the same key id already existed —
this is the content of the partial unique index. -/
theorem insertStream_ok_spec {db db2 : DB} {s : Stream}
    (h : db.insertStream s = .ok db2) :
    db2.streams = db.streams ++ [s] ∧
    (s.status.isActive = true →
      ∀ t ∈ db.streams, ¬(t.streamKeyId == s.streamKeyId && t.status.isActive)) := by
  unfold DB.insertStream at h
  split at h
  · exact absurd h (by simp)
  · split at h
    · exact absurd h (by simp)
    · rename_i h2
      refine ⟨by cases h; rfl, ?_⟩
      intro hact t ht hp
      exact h2 (by
        simp only [hact, Bool.true_and, List.any_eq_true]
        exact ⟨t, ht, hp⟩)

/-- A successful stream insert preserves the one-live-per-key invariant. -/
theorem oneLive_insertStream {db db2 : DB} {s : Stream}
    (inv : OneLivePerKey db) (h : db.insertStream s = .ok db2) :
    OneLivePerKey db2 := by
  obtain ⟨hs, hguard⟩ := insertStream_ok_spec h
  intro kid
  unfold activeCount
  rw [hs, List.countP_append]
  by_cases hp : (s.streamKeyId == kid && s.status.isActive) = true
  · have hp' : s.streamKeyId = kid ∧ s.status.isActive = true := by simpa using hp
    have hact : s.status.isActive = true := hp'.2
    have hkid : s.streamKeyId = kid := hp'.1
    have hzero : db.streams.countP
        (fun t => t.streamKeyId == kid && t.status.isActive) = 0 := by
      apply List.countP_eq_zero.mpr
      intro t ht
      have := hguard hact t ht
      simpa [hkid] using this
    simp [hzero, hp]
  · have : List.countP (fun t => t.streamKeyId == kid && t.status.isActive) [s] = 0 := by
      simp [List.countP, List.countP.go, hp]
    rw [this]
    simpa using inv kid

/-- Conditionally ending streams (the shape of both UPDATE ... SET
status = 'ended' statements) preserves the one-live-per-key invariant. -/
theorem oneLive_mapEnd (db : DB) (inv : OneLivePerKey db)
    (cond : Stream → Bool) (now : Nat) :
    OneLivePerKey { db with streams := db.streams.map (fun s =>
      if cond s then endStreamUpdate now s else s) } := by
  intro kid
  have hle : activeCount { db with streams := db.streams.map (fun s =>
      if cond s then endStreamUpdate now s else s) } kid ≤ activeCount db kid := by
    apply countP_map_le_of_imp
    intro x _ hpfx
    by_cases hc : cond x = true
    · simp [hc, endStreamUpdate, StreamStatus.isActive] at hpfx
    · simpa [hc] using hpfx
  exact le_trans hle (inv kid)

/-- Every atomic store write preserves the one-live-per-key invariant. -/
theorem oneLive_step {db db2 : DB} (inv : OneLivePerKey db) (st : Step db db2) :
    OneLivePerKey db2 := by
  cases st with
  | insertKey k h =>
    have : db2.streams = db.streams := by
      unfold DB.insertKey at h
      split at h
      · exact absurd h (by simp)
      · cases h; rfl
    intro kid
    unfold activeCount
    rw [this]
    exact inv kid
  | insertStream s h => exact oneLive_insertStream inv h
  | endStream id now db => exact oneLive_mapEnd db inv _ now
  | endStreamByPath p now db => exact oneLive_mapEnd db inv _ now
  | updateKeyStatus id st r db => exact inv
  | markKeyExpired id db => exact inv
  | updateKeyLastUsed id now db => exact inv

/-- Every reachable store state satisfies the one-live-per-key invariant. -/
theorem oneLive_reachable {db : DB} (h : Reachable db) : OneLivePerKey db := by
  induction h with
  | empty => intro kid; simp [activeCount, DB.empty]
  | step _ h2 ih => exact oneLive_step ih h2

/-- Reachability is closed under the admission check: every write
`Authenticate` issues is one of the atomic steps. -/
theorem reachable_Authenticate {db : DB} (h : Reachable db) (now : Nat)
    (req : AuthRequest) : Reachable (AuthService.Authenticate db now req).db := by
  unfold AuthService.Authenticate
  split
  · exact h
  · split
    · exact h
    · split
      · exact h
      · rename_i key _
        split
        · exact h
        · split
          · exact h
          · split
            · exact h.step (Step.markKeyExpired key.id db)
            · split
              · exact h
              · exact h.step (Step.updateKeyLastUsed key.id now db)

/-- Reachability is closed under the ready webhook: it either writes
nothing or performs one (index-checked) stream insert. -/
theorem reachable_handleReady {db : DB} (h : Reachable db) (now newId : Nat)
    (req : WebhookReadyRequest) :
    Reachable (WebhookHandler.handleReady db now newId req).1 := by
  unfold WebhookHandler.handleReady
  split
  · exact h
  · split
    · exact h
    · split
      · exact h
      · rename_i heq
        exact h.step (Step.insertStream _ heq)

/-- Reachability is closed under the stop webhook. -/
theorem reachable_handleNotReady {db : DB} (h : Reachable db) (now : Nat)
    (req : WebhookNotReadyRequest) :
    Reachable (WebhookHandler.handleNotReady db now req).1 := by
  unfold WebhookHandler.handleNotReady
  split
  · exact h
  · exact h.step (Step.endStreamByPath req.path now db)

/-- Reachability is closed under revocation: it writes at most an
end-stream update followed by a key status update. -/
theorem reachable_Revoke {db : DB} (h : Reachable db) (now : Nat)
    (env : MtxEnv) (id : Nat) :
    Reachable (StreamKeyService.Revoke db now env id).db := by
  unfold StreamKeyService.Revoke
  split
  · exact h
  · split
    · exact h
    · split
      · exact h.step (Step.updateKeyStatus id .revoked (some now) db)
      · exact (h.step (Step.endStream _ now db)).step
          (Step.updateKeyStatus id .revoked (some now) _)

/-- C9: for every authentication request whose action is not "publish", the
request is admitted immediately with the non-publish reason, and the call
neither reads nor writes any credential or stream row (empty SQL trace,
store unchanged). -/
theorem nonpublish_admitted_without_store_access
    (db : DB) (now : Nat) (req : AuthRequest) (h : req.action ≠ "publish") :
    (AuthService.Authenticate db now req).result.allowed = true ∧
    (AuthService.Authenticate db now req).result.reason = "non-publish action allowed" ∧
    (AuthService.Authenticate db now req).db = db ∧
    (AuthService.Authenticate db now req).trace = [] := by
  unfold AuthService.Authenticate
  rw [if_pos h]
  exact ⟨rfl, rfl, rfl, rfl⟩

/-- Witness for C9: a concrete "read" admission check with no credential is
admitted, with the non-publish reason, and touches no row. -/
theorem nonpublish_admitted_without_store_access_witness :
    (AuthService.Authenticate db10c 0 req9c).result.allowed = true ∧
    (AuthService.Authenticate db10c 0 req9c).db = db10c ∧
    (AuthService.Authenticate db10c 0 req9c).trace = [] :=
  ⟨(nonpublish_admitted_without_store_access db10c 0 req9c (by decide)).1,
   (nonpublish_admitted_without_store_access db10c 0 req9c (by decide)).2.2.1,
   (nonpublish_admitted_without_store_access db10c 0 req9c (by decide)).2.2.2⟩

/-- C10: every stream key returned by `StreamKeyService.List` (here
`ListKeys`) or `StreamKeyService.ListByBroadcaster` has its key value
blanked: the secret is never exposed through the listing operations. -/
theorem listing_clears_key_values (db : DB) (bid : Nat) :
    (∀ k ∈ StreamKeyService.ListKeys db, k.keyValue = "") ∧
    (∀ k ∈ StreamKeyService.ListByBroadcaster db bid, k.keyValue = "") := by
  constructor
  · intro k hk
    obtain ⟨a, _, rfl⟩ := List.mem_map.mp hk
    rfl
  · intro k hk
    obtain ⟨a, _, rfl⟩ := List.mem_map.mp hk
    rfl

/-- Witness for C10: the stored secret "sk_secret" of `k10c` comes back
blanked from the listing of a concrete store. -/
theorem listing_clears_key_values_witness :
    ({ k10c with keyValue := "" }) ∈ StreamKeyService.ListKeys db10c ∧
    ({ k10c with keyValue := "" } : StreamKey).keyValue = "" :=
  ⟨by decide, (listing_clears_key_values db10c 2).1 _ (by decide)⟩

/-- C8: any two rejected admission attempts, whatever their internal
reasons, produce the identical external response — a bare 401 with no
body — so the caller cannot distinguish the causes. -/
theorem rejected_admissions_uniform_response
    (db1 : DB) (now1 : Nat) (req1 : AuthRequest)
    (db2 : DB) (now2 : Nat) (req2 : AuthRequest)
    (h1 : (AuthService.Authenticate db1 now1 req1).result.allowed = false)
    (h2 : (AuthService.Authenticate db2 now2 req2).result.allowed = false) :
    (AuthHandler.ServeHTTP db1 now1 req1).2 = (AuthHandler.ServeHTTP db2 now2 req2).2 ∧
    (AuthHandler.ServeHTTP db1 now1 req1).2 = ⟨401, none⟩ := by
  unfold AuthHandler.ServeHTTP AuthHandler.respond
  simp [h1, h2]

/-- Witness for C8: a probe with an unknown secret and a probe with a
revoked key receive the same response. -/
theorem rejected_admissions_uniform_response_witness :
    (AuthHandler.ServeHTTP DB.empty 0 req8a).2 = (AuthHandler.ServeHTTP db8c 0 req8b).2 :=
  (rejected_admissions_uniform_response DB.empty 0 req8a db8c 0 req8b
    (by decide) (by decide)).1

/-- C6: revoking a key whose status is not active returns the
invalid-transition error and leaves the store (keys and streams alike)
completely unchanged, kicking nothing. -/
theorem revoke_nonactive_returns_invalid_transition
    (db : DB) (now : Nat) (env : MtxEnv) (id : Nat) (key : StreamKey)
    (hfind : db.findKeyById id = some key) (hst : key.status ≠ .active) :
    (StreamKeyService.Revoke db now env id).result = .error .invalidStatus ∧
    (StreamKeyService.Revoke db now env id).db = db ∧
    (StreamKeyService.Revoke db now env id).kicked = [] := by
  unfold StreamKeyService.Revoke
  rw [hfind]
  simp [hst]

/-- Witness for C6: revoking the already-revoked `key6c` errors with the
invalid transition and changes nothing. -/
theorem revoke_nonactive_returns_invalid_transition_witness :
    (StreamKeyService.Revoke db6c 9 env6c 1).result = .error .invalidStatus ∧
    (StreamKeyService.Revoke db6c 9 env6c 1).db = db6c :=
  ⟨(revoke_nonactive_returns_invalid_transition db6c 9 env6c 1 key6c
      (by decide) (by decide)).1,
   (revoke_nonactive_returns_invalid_transition db6c 9 env6c 1 key6c
      (by decide) (by decide)).2.1⟩

/-- Helper: every admission check either leaves the store unchanged, or is
the lazy-expiry rejection, or is an admission. -/
theorem authenticate_write_cases (db : DB) (now : Nat) (req : AuthRequest) :
    (AuthService.Authenticate db now req).db = db ∨
    (AuthService.Authenticate db now req).result.reason = "stream key expired" ∨
    (AuthService.Authenticate db now req).result.allowed = true := by
  unfold AuthService.Authenticate
  split
  · left; rfl
  · split
    · left; rfl
    · split
      · left; rfl
      · split
        · left; rfl
        · split
          · left; rfl
          · split
            · right; left; rfl
            · split
              · left; rfl
              · right; right; rfl

/-- C5: a publish attempt with a stored-active key whose expiry time lies in
the past is rejected with the expiry reason, the key's stored status is
durably changed to expired inside the same transaction, no stream row
changes, and (second half) the lazy-expiry rejection is the only rejection
branch of the admission check that writes any state. -/
theorem expired_key_rejected_and_marked_expired
    (db : DB) (now : Nat) (req : AuthRequest) (key : StreamKey)
    (hpub : req.action = "publish") (hkv : extractKeyValue req ≠ "")
    (hfind : db.findKeyByValue (extractKeyValue req) = some key)
    (hact : key.status = .active) (hexp : expiredByTime key now = true) :
    ((AuthService.Authenticate db now req).result.allowed = false ∧
     (AuthService.Authenticate db now req).result.reason = "stream key expired" ∧
     (∀ k ∈ (AuthService.Authenticate db now req).db.keys, k.id = key.id →
        k.status = .expired) ∧
     (AuthService.Authenticate db now req).db.streams = db.streams) ∧
    (∀ db2 now2 req2,
      (AuthService.Authenticate db2 now2 req2).result.allowed = false →
      (AuthService.Authenticate db2 now2 req2).db = db2 ∨
      (AuthService.Authenticate db2 now2 req2).result.reason = "stream key expired") := by
  constructor
  · have hred : AuthService.Authenticate db now req =
        ⟨(db.markKeyExpired key.id).1, ⟨false, none, "stream key expired"⟩,
         [.selectKeyForUpdate, .updateKeyExpired]⟩ := by
      unfold AuthService.Authenticate
      rw [if_neg (by simp [hpub]), if_neg hkv, hfind]
      simp [hact, hexp]
    rw [hred]
    refine ⟨rfl, rfl, ?_, rfl⟩
    intro k hk hkid
    unfold DB.markKeyExpired at hk
    obtain ⟨a, _, rfl⟩ := List.mem_map.mp hk
    by_cases h : (a.id == key.id) = true
    · rw [if_pos h]
    · rw [if_neg h] at hkid ⊢
      exact absurd (by simpa using hkid) h
  · intro db2 now2 req2 hrej
    rcases authenticate_write_cases db2 now2 req2 with h | h | h
    · exact Or.inl h
    · exact Or.inr h
    · rw [h] at hrej
      exact absurd hrej (by simp)

/-- Witness for C5: the concrete key "k5", active but expired at time 3, is
rejected at time 10 and its stored row now carries the expired status. -/
theorem expired_key_rejected_and_marked_expired_witness :
    (AuthService.Authenticate db5c 10 req5c).result.allowed = false ∧
    (AuthService.Authenticate db5c 10 req5c).result.reason = "stream key expired" ∧
    (⟨1, "k5", 7, .expired, 0, some 3, none, none⟩ : StreamKey).status = .expired :=
  ⟨(expired_key_rejected_and_marked_expired db5c 10 req5c key5c
      (by decide) (by decide) (by decide) (by decide) (by decide)).1.1,
   (expired_key_rejected_and_marked_expired db5c 10 req5c key5c
      (by decide) (by decide) (by decide) (by decide) (by decide)).1.2.1,
   (expired_key_rejected_and_marked_expired db5c 10 req5c key5c
      (by decide) (by decide) (by decide) (by decide) (by decide)).1.2.2.1
     ⟨1, "k5", 7, .expired, 0, some 3, none, none⟩ (by decide) (by decide)⟩

/-- Counterexample to C2: on the concrete store `db2c` (one active key, no
streams) the publish request `req2c` is admitted, yet afterwards the store
still holds no stream row at all — no Live stream row for the credential
exists after the successful admit, contradicting the claim that
`Authenticate` creates one in the same transaction. -/
theorem authenticate_admit_creates_no_stream_cex :
    (AuthService.Authenticate db2c 5 req2c).result.allowed = true ∧
    (AuthService.Authenticate db2c 5 req2c).db.streams = [] ∧
    activeCount (AuthService.Authenticate db2c 5 req2c).db key2c.id = 0 := by
  decide

/-- C2 as amended: for every admitted publish request (credential found,
active, unexpired, no live stream), `Authenticate` updates the credential's
last-used timestamp inside the transaction and returns admit with the
credential's id, but creates no stream row — the stream table is untouched;
the Live stream row only appears later, when MediaMTX delivers the ready
webhook. -/
theorem authenticate_admit_updates_last_used_only
    (db : DB) (now : Nat) (req : AuthRequest) (key : StreamKey)
    (hpub : req.action = "publish") (hkv : extractKeyValue req ≠ "")
    (hfind : db.findKeyByValue (extractKeyValue req) = some key)
    (hact : key.status = .active) (hexp : expiredByTime key now = false)
    (hfree : db.activeStreamByKeyId key.id = none) :
    (AuthService.Authenticate db now req).result.allowed = true ∧
    (AuthService.Authenticate db now req).result.streamKeyID = some key.id ∧
    (AuthService.Authenticate db now req).result.reason = "authentication successful" ∧
    (AuthService.Authenticate db now req).db.streams = db.streams ∧
    (∀ k ∈ (AuthService.Authenticate db now req).db.keys, k.id = key.id →
       k.lastUsedAt = some now) := by
  have hred : AuthService.Authenticate db now req =
      ⟨(db.updateKeyLastUsed key.id now).1,
       ⟨true, some key.id, "authentication successful"⟩,
       [.selectKeyForUpdate, .selectActiveStream, .updateKeyLastUsed]⟩ := by
    unfold AuthService.Authenticate
    rw [if_neg (by simp [hpub]), if_neg hkv, hfind]
    simp [hact, hexp, hfree]
  rw [hred]
  refine ⟨rfl, rfl, rfl, rfl, ?_⟩
  intro k hk hkid
  unfold DB.updateKeyLastUsed at hk
  obtain ⟨a, _, rfl⟩ := List.mem_map.mp hk
  by_cases h : (a.id == key.id) = true
  · rw [if_pos h]
  · rw [if_neg h] at hkid ⊢
    exact absurd (by simpa using hkid) h

/-- Witness for the amended C2: the concrete admitted request `req2c`
leaves the stream table unchanged and stamps last-used onto the key row. -/
theorem authenticate_admit_updates_last_used_only_witness :
    (AuthService.Authenticate db2c 5 req2c).result.allowed = true ∧
    (AuthService.Authenticate db2c 5 req2c).db.streams = db2c.streams ∧
    (⟨1, "k1", 7, .active, 0, none, none, some 5⟩ : StreamKey).lastUsedAt = some 5 :=
  ⟨(authenticate_admit_updates_last_used_only db2c 5 req2c key2c
      (by decide) (by decide) (by decide) (by decide) (by decide) (by decide)).1,
   (authenticate_admit_updates_last_used_only db2c 5 req2c key2c
      (by decide) (by decide) (by decide) (by decide) (by decide) (by decide)).2.2.2.1,
   (authenticate_admit_updates_last_used_only db2c 5 req2c key2c
      (by decide) (by decide) (by decide) (by decide) (by decide) (by decide)).2.2.2.2
     ⟨1, "k1", 7, .active, 0, none, none, some 5⟩ (by decide) (by decide)⟩

/-- Counterexample to C4: on the concrete store `db4c` the credential "p"
exists but has no live stream, yet the ready webhook for path "p" creates a
fresh stream row (the store changes), while answering success — refuting
the claim that the handler attaches descriptors to an existing Live
broadcast and performs no state change when none exists. -/
theorem handleReady_creates_stream_cex :
    db4c.activeStreamByKeyId key4c.id = none ∧
    (WebhookHandler.handleReady db4c 5 100 req4c).1 ≠ db4c ∧
    (WebhookHandler.handleReady db4c 5 100 req4c).1.streams =
      [readyStream 100 key4c.id 5 req4c] ∧
    (WebhookHandler.handleReady db4c 5 100 req4c).2 = 204 := by
  decide

/-- C4 as amended: for every ready notification with a non-empty path, the
handler acknowledges success (204); when no credential matches the path the
store is untouched; when a credential matches, the handler inserts a fresh
active stream row carrying the supplied source descriptors — the insert is
refused by the store (leaving it unchanged) when the credential already has
an active stream, and succeeds (appending exactly that row) when the
credential has none and the generated id is fresh. -/
theorem handleReady_creates_fresh_stream
    (db : DB) (now newId : Nat) (req : WebhookReadyRequest) (hp : req.path ≠ "") :
    (WebhookHandler.handleReady db now newId req).2 = 204 ∧
    (db.findKeyByValue req.path = none →
      (WebhookHandler.handleReady db now newId req).1 = db) ∧
    (∀ key, db.findKeyByValue req.path = some key →
      (db.activeStreamByKeyId key.id ≠ none →
        (WebhookHandler.handleReady db now newId req).1 = db) ∧
      (db.streams.all (fun t => !(t.id == newId)) = true →
        db.activeStreamByKeyId key.id = none →
        (WebhookHandler.handleReady db now newId req).1.streams =
          db.streams ++ [readyStream newId key.id now req])) := by
  unfold WebhookHandler.handleReady
  rw [if_neg hp]
  refine ⟨?_, ?_, ?_⟩
  · rcases hfind : db.findKeyByValue req.path with _ | key
    · simp
    · rcases hins : db.insertStream (readyStream newId key.id now req) with e | d
      · simp [hins]
      · simp [hins]
  · intro hnone
    rw [hnone]
  · intro key hfind
    rw [hfind]
    constructor
    · intro hbusy
      rcases hact : db.activeStreamByKeyId key.id with _ | t
      · exact absurd hact hbusy
      · have ht := List.mem_of_find?_eq_some hact
        have htp := List.find?_some hact
        rcases hins : db.insertStream (readyStream newId key.id now req) with e | d
        · simp [hins]
        · exfalso
          obtain ⟨_, hguard⟩ := insertStream_ok_spec hins
          exact hguard rfl t ht (by simpa [readyStream] using htp)
    · intro hfresh hempty
      have h1 : db.streams.any
          (fun t => t.id == (readyStream newId key.id now req).id) = false := by
        rw [List.any_eq_false]
        intro t ht
        have := List.all_eq_true.mp hfresh t ht
        simpa [readyStream] using this
      have h2 : db.streams.any (fun t =>
          t.streamKeyId == (readyStream newId key.id now req).streamKeyId &&
          t.status.isActive) = false := by
        rw [List.any_eq_false]
        intro t ht
        have := List.find?_eq_none.mp hempty t ht
        simpa [readyStream] using this
      have hins : db.insertStream (readyStream newId key.id now req) =
          .ok { db with streams := db.streams ++ [readyStream newId key.id now req] } := by
        unfold DB.insertStream
        rw [if_neg (by simp [h1]), if_neg (by simp [h2])]
      simp [hins]

/-- Witness for the amended C4: on the concrete fixture the ready webhook
appends exactly the fresh stream row and answers 204. -/
theorem handleReady_creates_fresh_stream_witness :
    (WebhookHandler.handleReady db4c 5 100 req4c).2 = 204 ∧
    (WebhookHandler.handleReady db4c 5 100 req4c).1.streams =
      db4c.streams ++ [readyStream 100 key4c.id 5 req4c] :=
  ⟨(handleReady_creates_fresh_stream db4c 5 100 req4c (by decide)).1,
   ((handleReady_creates_fresh_stream db4c 5 100 req4c (by decide)).2.2 key4c
      (by decide)).2 (by decide) (by decide)⟩

/-- C7: the stopped webhook with a non-empty path always acknowledges with
204; the first delivery turns every active stream on that path into an
ended one with the end time set; a second delivery of the same notification
changes nothing; and a delivery for a path with no active stream leaves the
store untouched. -/
theorem handleNotReady_idempotent
    (db : DB) (t1 t2 : Nat) (req : WebhookNotReadyRequest) (hp : req.path ≠ "") :
    (WebhookHandler.handleNotReady db t1 req).2 = 204 ∧
    (WebhookHandler.handleNotReady (WebhookHandler.handleNotReady db t1 req).1 t2 req).2 = 204 ∧
    (WebhookHandler.handleNotReady (WebhookHandler.handleNotReady db t1 req).1 t2 req).1 =
      (WebhookHandler.handleNotReady db t1 req).1 ∧
    (∀ s ∈ db.streams, s.path = req.path → s.status = .active →
       endStreamUpdate t1 s ∈ (WebhookHandler.handleNotReady db t1 req).1.streams) ∧
    (db.streams.all (fun s => !(s.path == req.path && s.status.isActive)) = true →
       (WebhookHandler.handleNotReady db t1 req).1 = db) := by
  have hred : ∀ (d : DB) (t : Nat), WebhookHandler.handleNotReady d t req =
      ({ d with streams := d.streams.map (fun s =>
          if s.path == req.path && s.status.isActive then endStreamUpdate t s else s) },
       204) := by
    intro d t
    unfold WebhookHandler.handleNotReady StreamRepo.EndStreamByPath DB.endStreamByPathRows
    rw [if_neg hp]
  refine ⟨by rw [hred], by rw [hred, hred], ?_, ?_, ?_⟩
  · rw [hred, hred]
    have hmap : (db.streams.map (fun s =>
        if s.path == req.path && s.status.isActive then endStreamUpdate t1 s else s)).map
          (fun s => if s.path == req.path && s.status.isActive then endStreamUpdate t2 s else s) =
        db.streams.map (fun s =>
          if s.path == req.path && s.status.isActive then endStreamUpdate t1 s else s) := by
      have hid : ∀ y ∈ db.streams.map (fun s =>
          if s.path == req.path && s.status.isActive then endStreamUpdate t1 s else s),
          (if y.path == req.path && y.status.isActive then endStreamUpdate t2 y else y) = id y := by
        intro y hy
        obtain ⟨x, _, rfl⟩ := List.mem_map.mp hy
        by_cases hc : (x.path == req.path && x.status.isActive) = true
        · rw [if_pos hc]
          rw [if_neg (by simp [endStreamUpdate, StreamStatus.isActive])]
          rfl
        · rw [if_neg hc, if_neg hc]
          rfl
      rw [List.map_congr_left hid, List.map_id]
    rw [hmap]
  · intro s hs hpath hact
    rw [hred]
    have hc : (s.path == req.path && s.status.isActive) = true := by
      simp [hpath, hact, StreamStatus.isActive]
    have hmem := List.mem_map_of_mem (fun s =>
      if s.path == req.path && s.status.isActive then endStreamUpdate t1 s else s) hs
    simp only [hc, if_true] at hmem
    exact hmem
  · intro hall
    rw [hred]
    have hmap : db.streams.map (fun s =>
        if s.path == req.path && s.status.isActive then endStreamUpdate t1 s else s) =
        db.streams := by
      have hid : ∀ y ∈ db.streams,
          (if y.path == req.path && y.status.isActive then endStreamUpdate t1 y else y) = id y := by
        intro y hy
        have hnot := List.all_eq_true.mp hall y hy
        by_cases hb : (y.path == req.path && y.status.isActive) = true
        · exfalso
          rw [hb] at hnot
          simp at hnot
        · rw [if_neg hb]
          rfl
      rw [List.map_congr_left hid, List.map_id]
    rw [hmap]

/-- Witness for C7: on the concrete store with one active stream on "p7",
the first stop delivery ends it, and the second delivery changes nothing
while still acknowledging success. -/
theorem handleNotReady_idempotent_witness :
    (WebhookHandler.handleNotReady db7c 3 req7c).2 = 204 ∧
    (WebhookHandler.handleNotReady (WebhookHandler.handleNotReady db7c 3 req7c).1 4 req7c).1 =
      (WebhookHandler.handleNotReady db7c 3 req7c).1 ∧
    endStreamUpdate 3 s7c ∈ (WebhookHandler.handleNotReady db7c 3 req7c).1.streams :=
  ⟨(handleNotReady_idempotent db7c 3 4 req7c (by decide)).1,
   (handleNotReady_idempotent db7c 3 4 req7c (by decide)).2.2.1,
   (handleNotReady_idempotent db7c 3 4 req7c (by decide)).2.2.2.1 s7c
     (by decide) (by decide) (by decide)⟩

/-- Helper: updating the status of a key that is present in the store
affects at least one row and thus reports success. -/
theorem updateStatus_ok {db : DB} {id : Nat} {st : StreamKeyStatus} {r : Option Nat}
    (h : ∃ k ∈ db.keys, (k.id == id) = true) :
    (StreamKeyRepo.UpdateStatus db id st r).2 = .ok () := by
  unfold StreamKeyRepo.UpdateStatus DB.updateKeyStatus
  have hpos : 0 < db.keys.countP (fun k => k.id == id) := List.countP_pos_iff.mpr h
  rw [if_neg (by simp [Nat.pos_iff_ne_zero.mp hpos])]

/-- C3: revoking an active key that owns an active stream succeeds for
every possible MediaMTX environment — in particular when the listing calls
fail or every kick is refused — and always ends the stream (status ended,
end time stamped) and marks the key revoked with the revocation time; no
MediaMTX failure can surface as a revocation error. -/
theorem revoke_ends_stream_despite_kick_failures
    (db : DB) (now : Nat) (env : MtxEnv) (id : Nat) (key : StreamKey) (s : Stream)
    (hfind : db.findKeyById id = some key) (hact : key.status = .active)
    (hstream : db.activeStreamByKeyId id = some s) :
    (StreamKeyService.Revoke db now env id).result = .ok () ∧
    endStreamUpdate now s ∈ (StreamKeyService.Revoke db now env id).db.streams ∧
    (∀ t ∈ (StreamKeyService.Revoke db now env id).db.streams, t.id = s.id →
       t.status = .ended) ∧
    (∀ k ∈ (StreamKeyService.Revoke db now env id).db.keys, k.id = id →
       k.status = .revoked ∧ k.revokedAt = some now) := by
  have hs_mem : s ∈ db.streams := List.mem_of_find?_eq_some hstream
  have hs_pred := List.find?_some hstream
  have hk_mem : key ∈ db.keys := List.mem_of_find?_eq_some hfind
  have hk_pred := List.find?_some hfind
  have hsact : s.status.isActive = true := by
    have := hs_pred
    simp only [Bool.and_eq_true] at this
    exact this.2
  have hred : StreamKeyService.Revoke db now env id =
      ⟨(StreamKeyRepo.UpdateStatus (StreamRepo.EndStream db s.id now).1
          id .revoked (some now)).1,
       (StreamKeyRepo.UpdateStatus (StreamRepo.EndStream db s.id now).1
          id .revoked (some now)).2,
       MediaMTXClient.KickPath env s.path⟩ := by
    unfold StreamKeyService.Revoke
    rw [hfind]
    simp [hact, hstream]
  rw [hred]
  refine ⟨?_, ?_, ?_, ?_⟩
  · exact updateStatus_ok ⟨key, hk_mem, hk_pred⟩
  · have hcond : (s.id == s.id && s.status.isActive) = true := by simp [hsact]
    have hmem := List.mem_map_of_mem (fun t =>
      if t.id == s.id && t.status.isActive then endStreamUpdate now t else t) hs_mem
    simp only [hcond, if_true] at hmem
    exact hmem
  · intro t ht htid
    have ht' : t ∈ db.streams.map (fun t =>
        if t.id == s.id && t.status.isActive then endStreamUpdate now t else t) := ht
    obtain ⟨x, _, rfl⟩ := List.mem_map.mp ht'
    by_cases hb : (x.id == s.id && x.status.isActive) = true
    · rw [if_pos hb]
      rfl
    · rw [if_neg hb] at htid ⊢
      have hxid : (x.id == s.id) = true := by simp [htid]
      have hia : x.status.isActive = false := by
        cases hx1 : x.status.isActive
        · rfl
        · exact absurd (by simp [hxid, hx1]) hb
      cases hx2 : x.status
      · rw [hx2] at hia
        simp [StreamStatus.isActive] at hia
      · rfl
  · intro k hk hkid
    have hk' : k ∈ db.keys.map (fun a => if a.id == id then { a with status := StreamKeyStatus.revoked, revokedAt := some now } else a) := hk
    obtain ⟨a, _, rfl⟩ := List.mem_map.mp hk'
    by_cases hb : (a.id == id) = true
    · rw [if_pos hb]
      exact ⟨rfl, rfl⟩
    · rw [if_neg hb] at hkid ⊢
      exact absurd (by simpa using hkid) hb

/-- Witness for C3: against the fixture environment in which the RTMP
listing fails and the only matching RTSP session refuses its kick, revoking
key 1 still succeeds, ends stream `s3c` with end time 9, and the revoked
key row carries the timestamp. -/
theorem revoke_ends_stream_despite_kick_failures_witness :
    (StreamKeyService.Revoke db3c 9 env3c 1).result = .ok () ∧
    endStreamUpdate 9 s3c ∈ (StreamKeyService.Revoke db3c 9 env3c 1).db.streams ∧
    (⟨1, "p3", 7, .revoked, 0, none, some 9, none⟩ : StreamKey).revokedAt = some 9 :=
  ⟨(revoke_ends_stream_despite_kick_failures db3c 9 env3c 1 key3c s3c
      (by decide) (by decide) (by decide)).1,
   (revoke_ends_stream_despite_kick_failures db3c 9 env3c 1 key3c s3c
      (by decide) (by decide) (by decide)).2.1,
   ((revoke_ends_stream_despite_kick_failures db3c 9 env3c 1 key3c s3c
      (by decide) (by decide) (by decide)).2.2.2
     ⟨1, "p3", 7, .revoked, 0, none, some 9, none⟩ (by decide) (by decide)).2⟩

/-- C1: every store state reachable by the atomic SQL writes of the
subsystem satisfies the one-live-per-key invariant — at most one active
stream row per stream key — and reachability is closed under each whole
operation (admission check, ready webhook, stop webhook, revocation), so
the invariant holds across any interleaving of those operations; the
enforcement is structural, living in `DB.insertStream` (the partial unique
index), not in the application logic. -/
theorem one_live_per_key_invariant :
    (∀ db, Reachable db → OneLivePerKey db) ∧
    (∀ db now req, Reachable db → Reachable (AuthService.Authenticate db now req).db) ∧
    (∀ db now newId req, Reachable db →
       Reachable (WebhookHandler.handleReady db now newId req).1) ∧
    (∀ db now req, Reachable db →
       Reachable (WebhookHandler.handleNotReady db now req).1) ∧
    (∀ db now env id, Reachable db →
       Reachable (StreamKeyService.Revoke db now env id).db) :=
  ⟨fun _ h => oneLive_reachable h,
   fun _ now req h => reachable_Authenticate h now req,
   fun _ now newId req h => reachable_handleReady h now newId req,
   fun _ now req h => reachable_handleNotReady h now req,
   fun _ now env id h => reachable_Revoke h now env id⟩

/-- Witness for C1: the store obtained by creating key `k1w` and letting
the ready webhook start a stream for it is reachable, and the invariant
bound evaluates there. -/
theorem one_live_per_key_invariant_witness :
    activeCount (WebhookHandler.handleReady db1w 3 10 ⟨"sk_alpha", "rtmp", "x"⟩).1 1 ≤ 1 :=
  (one_live_per_key_invariant.1 _
    (one_live_per_key_invariant.2.2.1 db1w 3 10 ⟨"sk_alpha", "rtmp", "x"⟩
      (Reachable.empty.step (Step.insertKey k1w rfl)))) 1

end RescueStream
